import Mathlib

/-!
Verification development for the docutils English language mappings
(`docutils/parsers/rst/languages/en.py`) together with the
language-mapping registry specified for the surrounding system.

The source file contributes two constant string-to-string mappings,
`directives` and `roles`; they are embedded below as association lists in
source order.  The registry operations (`resolveDirective`, `resolveRole`,
`registerLanguage`) are not part of the source excerpt and are modelled
from the specification.
-/

set_option autoImplicit false

namespace Docutils

/-- English directive-name mapping, translated entry for entry, in order,
from `directives` in `docutils/parsers/rst/languages/en.py` (lines 15-52).
Entries commented out in the source (questions, qa, faq, imagemap,
footnotes, citations) are absent, exactly as in the source. -/
def directives : List (String × String) :=
  [ ("attention", "attention"),
    ("caution", "caution"),
    ("danger", "danger"),
    ("error", "error"),
    ("hint", "hint"),
    ("important", "important"),
    ("note", "note"),
    ("tip", "tip"),
    ("warning", "warning"),
    ("admonition", "admonition"),
    ("sidebar", "sidebar"),
    ("topic", "topic"),
    ("line-block", "line-block"),
    ("parsed-literal", "parsed-literal"),
    ("rubric", "rubric"),
    ("epigraph", "epigraph"),
    ("highlights", "highlights"),
    ("pull-quote", "pull-quote"),
    ("meta", "meta"),
    ("image", "image"),
    ("figure", "figure"),
    ("include", "include"),
    ("raw", "raw"),
    ("replace", "replace"),
    ("unicode", "unicode"),
    ("class", "class"),
    ("contents", "contents"),
    ("sectnum", "sectnum"),
    ("section-numbering", "sectnum"),
    ("target-notes", "target-notes"),
    ("restructuredtext-test-directive", "restructuredtext-test-directive") ]

/-- English role-name mapping, translated entry for entry, in order, from
`roles` in `docutils/parsers/rst/languages/en.py` (lines 56-85). -/
def roles : List (String × String) :=
  [ ("abbreviation", "abbreviation"),
    ("ab", "abbreviation"),
    ("acronym", "acronym"),
    ("ac", "acronym"),
    ("index", "index"),
    ("i", "index"),
    ("subscript", "subscript"),
    ("sub", "subscript"),
    ("superscript", "superscript"),
    ("sup", "superscript"),
    ("title-reference", "title-reference"),
    ("title", "title-reference"),
    ("t", "title-reference"),
    ("pep-reference", "pep-reference"),
    ("pep", "pep-reference"),
    ("rfc-reference", "rfc-reference"),
    ("rfc", "rfc-reference"),
    ("emphasis", "emphasis"),
    ("strong", "strong"),
    ("literal", "literal"),
    ("named-reference", "named-reference"),
    ("anonymous-reference", "anonymous-reference"),
    ("footnote-reference", "footnote-reference"),
    ("citation-reference", "citation-reference"),
    ("substitution-reference", "substitution-reference"),
    ("target", "target"),
    ("uri-reference", "uri-reference"),
    ("uri", "uri-reference"),
    ("url", "uri-reference") ]

/-- Modelled from the spec: exact, case-sensitive association lookup with
no normalization (section 4.1, "Lookup semantics"); this is the dictionary
access the registry performs.  The source excerpt holds only the data, not
the lookup code. -/
def assocLookup {α : Type} (key : String) : List (String × α) → Option α
  | [] => none
  | (k, v) :: rest => if key = k then some v else assocLookup key rest

/-- Modelled from the spec: `LanguageMapping` (section 3), a pair of
string-to-string mappings, one for directive names and one for role
names.  The `directives`/`roles` dictionaries of `en.py` are its English
instance. -/
structure LanguageMapping where
  directiveNames : List (String × String)
  roleNames : List (String × String)
deriving DecidableEq

/-- Modelled from the spec: the registry's internal state (section 4.1), a
finite association of language tags to their mappings. -/
def Registry : Type := List (String × LanguageMapping)

/-- Modelled from the spec: the typed lookup errors `UnknownLanguage`,
`UnknownDirective` and `UnknownRole` (section 7). -/
inductive ResolveError where
  | unknownLanguage
  | unknownDirective
  | unknownRole
deriving DecidableEq

/-- Modelled from the spec: the registration error `DuplicateLanguage`
(section 7). -/
inductive RegisterError where
  | duplicateLanguage
deriving DecidableEq

/-- Modelled from the spec: `resolveDirective(languageTag, localizedName)`
(section 4.1): fails with `UnknownLanguage` when the tag is unregistered,
with `UnknownDirective` when the name is not a key of the language's
`directiveNames`, and otherwise returns the canonical name. -/
def resolveDirective (reg : Registry) (languageTag localizedName : String) :
    Except ResolveError String :=
  match assocLookup languageTag reg with
  | none => .error .unknownLanguage
  | some m =>
    match assocLookup localizedName m.directiveNames with
    | none => .error .unknownDirective
    | some canonical => .ok canonical

/-- Modelled from the spec: `resolveRole(languageTag, localizedName)`
(section 4.1), the identical contract over `roleNames`. -/
def resolveRole (reg : Registry) (languageTag localizedName : String) :
    Except ResolveError String :=
  match assocLookup languageTag reg with
  | none => .error .unknownLanguage
  | some m =>
    match assocLookup localizedName m.roleNames with
    | none => .error .unknownRole
    | some canonical => .ok canonical

/-- Modelled from the spec: `registerLanguage(languageTag, mapping)`
(section 4.1) as a state transition: it fails with `DuplicateLanguage` and
leaves the registry unchanged when the tag is already registered, and
otherwise installs the mapping for the tag. -/
def registerLanguage (reg : Registry) (languageTag : String)
    (m : LanguageMapping) : Registry × Except RegisterError Unit :=
  match assocLookup languageTag reg with
  | some _ => (reg, .error .duplicateLanguage)
  | none => ((languageTag, m) :: reg, .ok ())

/-- The English `LanguageMapping`: the two dictionaries of `en.py`. -/
def enMapping : LanguageMapping :=
  { directiveNames := directives, roleNames := roles }

/-- A registry holding exactly the English mapping under the tag "en",
the situation of the spec's concrete scenarios (section 8). -/
def enRegistry : Registry := [("en", enMapping)]

/-- Modelled from the spec: a single lookup request against the registry
(section 4.1 lists the two lookup operations consumed by the parser). -/
inductive LookupOp where
  | dir (languageTag localizedName : String)
  | role (languageTag localizedName : String)

/-- Modelled from the spec: performing one lookup against the registry
state, returning the (possibly updated) state and the lookup's result;
lookups read the registry and are specified to be pure (section 4.1,
"Side effects"). -/
def runLookup (reg : Registry) : LookupOp → Registry × Except ResolveError String
  | .dir t n => (reg, resolveDirective reg t n)
  | .role t n => (reg, resolveRole reg t n)

/-- Modelled from the spec: running a sequence of interleaved lookups,
threading the registry state through each. -/
def runLookups (reg : Registry) : List LookupOp → Registry
  | [] => reg
  | op :: rest => runLookups (runLookup reg op).1 rest

/-- A key of the English mappings: lowercase ASCII letters and hyphens
only. -/
def lowerHyphenChar (c : Char) : Bool :=
  ('a' ≤ c && c ≤ 'z') || c == '-'

/-- A string all of whose characters are lowercase ASCII letters or
hyphens. -/
def lowerHyphenKey (s : String) : Bool :=
  s.data.all lowerHyphenChar

/-- Helper: a successful association lookup returns an entry of the
list. -/
theorem assocLookup_mem {α : Type} {k : String} {v : α} :
    ∀ {l : List (String × α)}, assocLookup k l = some v → (k, v) ∈ l := by
  intro l
  induction l with
  | nil => intro h; simp [assocLookup] at h
  | cons p rest ih =>
    intro h
    obtain ⟨k', v'⟩ := p
    by_cases hk : k = k'
    · subst hk
      simp [assocLookup] at h
      subst h
      exact List.mem_cons_self _ _
    · simp [assocLookup, hk] at h
      exact List.mem_cons_of_mem _ (ih h)

/-- Helper: a string that is not among the keys of an association list
looks up to `none`. -/
theorem assocLookup_eq_none {α : Type} {k : String} {l : List (String × α)}
    (h : k ∉ l.map Prod.fst) : assocLookup k l = none := by
  cases hl : assocLookup k l with
  | none => rfl
  | some v =>
    exact absurd (List.mem_map_of_mem Prod.fst (assocLookup_mem hl)) h

/-- Helper: the English registry resolves directive names by looking them
up in the `directives` dictionary. -/
theorem resolveDirective_en_eq (s : String) :
    resolveDirective enRegistry "en" s =
      match assocLookup s directives with
      | none => .error .unknownDirective
      | some canonical => .ok canonical := rfl

/-- Helper: the English registry resolves role names by looking them up
in the `roles` dictionary. -/
theorem resolveRole_en_eq (s : String) :
    resolveRole enRegistry "en" s =
      match assocLookup s roles with
      | none => .error .unknownRole
      | some canonical => .ok canonical := rfl

/-- Helper: a single lookup leaves the registry component of the state
unchanged. -/
theorem runLookup_fst (reg : Registry) (op : LookupOp) :
    (runLookup reg op).1 = reg := by
  cases op <;> rfl

/-- Helper: any sequence of lookups leaves the registry unchanged. -/
theorem runLookups_id (reg : Registry) :
    ∀ ops : List LookupOp, runLookups reg ops = reg
  | [] => rfl
  | op :: rest => by
    rw [runLookups, runLookup_fst]
    exact runLookups_id reg rest

/-- C1: for every registered language and every key of its
`directiveNames` (respectively `roleNames`) mapping, `resolveDirective`
(respectively `resolveRole`) succeeds and returns the canonical value the
mapping assigns to that key; in particular
`resolveDirective "en" "warning" = ok "warning"` and
`resolveRole "en" "url" = ok "uri-reference"`. -/
theorem resolve_registered_key_ok (reg : Registry) (tag : String)
    (m : LanguageMapping) (hL : assocLookup tag reg = some m) :
    (∀ k v, assocLookup k m.directiveNames = some v →
        resolveDirective reg tag k = .ok v) ∧
    (∀ k v, assocLookup k m.roleNames = some v →
        resolveRole reg tag k = .ok v) ∧
    resolveDirective enRegistry "en" "warning" = .ok "warning" ∧
    resolveRole enRegistry "en" "url" = .ok "uri-reference" := by
  refine ⟨?_, ?_, rfl, rfl⟩
  · intro k v hk
    simp [resolveDirective, hL, hk]
  · intro k v hk
    simp [resolveRole, hL, hk]

/-- Witness for C1 at a concrete input: the registered key "note" of the
English directives mapping resolves to its canonical value. -/
theorem resolve_registered_key_ok_witness :
    resolveDirective enRegistry "en" "note" = .ok "note" :=
  (resolve_registered_key_ok enRegistry "en" enMapping rfl).1 "note" "note" rfl

/-- C2: for every registered language and every string that is not a key
of its `directiveNames` (respectively `roleNames`) mapping, resolution
fails with `UnknownDirective` (respectively `UnknownRole`); in particular
`resolveDirective "en" "footnotes"` fails with `UnknownDirective`, the
entry being commented out in the English source data. -/
theorem resolve_missing_key_fails (reg : Registry) (tag : String)
    (m : LanguageMapping) (hL : assocLookup tag reg = some m) :
    (∀ s, assocLookup s m.directiveNames = none →
        resolveDirective reg tag s = .error .unknownDirective) ∧
    (∀ s, assocLookup s m.roleNames = none →
        resolveRole reg tag s = .error .unknownRole) ∧
    resolveDirective enRegistry "en" "footnotes" = .error .unknownDirective := by
  refine ⟨?_, ?_, rfl⟩
  · intro s hs
    simp [resolveDirective, hL, hs]
  · intro s hs
    simp [resolveRole, hL, hs]

/-- Witness for C2 at a concrete input: "qa", also commented out in the
English source data, is rejected with `UnknownDirective`. -/
theorem resolve_missing_key_fails_witness :
    resolveDirective enRegistry "en" "qa" = .error .unknownDirective :=
  (resolve_missing_key_fails enRegistry "en" enMapping rfl).1 "qa" rfl

/-- C3: for every language tag with no registered mapping, both resolve
operations fail with `UnknownLanguage` on every string; in particular
`resolveDirective "fr" "warning"` fails with `UnknownLanguage` when only
the English mapping is registered. -/
theorem resolve_unknown_language (reg : Registry) (t : String)
    (hT : assocLookup t reg = none) :
    (∀ s, resolveDirective reg t s = .error .unknownLanguage) ∧
    (∀ s, resolveRole reg t s = .error .unknownLanguage) ∧
    resolveDirective enRegistry "fr" "warning" = .error .unknownLanguage ∧
    resolveRole enRegistry "fr" "warning" = .error .unknownLanguage := by
  refine ⟨?_, ?_, rfl, rfl⟩
  · intro s
    simp [resolveDirective, hT]
  · intro s
    simp [resolveRole, hT]

/-- Witness for C3 at a concrete input: the unregistered tag "de" fails
with `UnknownLanguage`. -/
theorem resolve_unknown_language_witness :
    resolveDirective enRegistry "de" "warning" = .error .unknownLanguage :=
  (resolve_unknown_language enRegistry "de" rfl).1 "warning"

/-- C4: synonym keys of a registered language that are assigned the same
canonical value resolve to equal results; in particular
`resolveRole "en" "ab" = resolveRole "en" "abbreviation" = ok "abbreviation"`
and
`resolveDirective "en" "section-numbering" = resolveDirective "en" "sectnum" = ok "sectnum"`. -/
theorem resolve_synonyms_agree (reg : Registry) (tag : String)
    (m : LanguageMapping) (hL : assocLookup tag reg = some m) :
    (∀ k1 k2 v, assocLookup k1 m.directiveNames = some v →
        assocLookup k2 m.directiveNames = some v →
        resolveDirective reg tag k1 = resolveDirective reg tag k2) ∧
    (∀ k1 k2 v, assocLookup k1 m.roleNames = some v →
        assocLookup k2 m.roleNames = some v →
        resolveRole reg tag k1 = resolveRole reg tag k2) ∧
    resolveRole enRegistry "en" "ab" = .ok "abbreviation" ∧
    resolveRole enRegistry "en" "abbreviation" = .ok "abbreviation" ∧
    resolveDirective enRegistry "en" "section-numbering" = .ok "sectnum" ∧
    resolveDirective enRegistry "en" "sectnum" = .ok "sectnum" := by
  refine ⟨?_, ?_, rfl, rfl, rfl, rfl⟩
  · intro k1 k2 v h1 h2
    simp [resolveDirective, hL, h1, h2]
  · intro k1 k2 v h1 h2
    simp [resolveRole, hL, h1, h2]

/-- Witness for C4 at a concrete input: the synonym pair "uri" and "url"
of the English roles mapping resolve equally. -/
theorem resolve_synonyms_agree_witness :
    resolveRole enRegistry "en" "uri" = resolveRole enRegistry "en" "url" :=
  (resolve_synonyms_agree enRegistry "en" enMapping rfl).2.1
    "uri" "url" "uri-reference" rfl rfl

/-- C5: lookup is an exact, case-sensitive string match with no
normalization: any string that is not character-for-character equal to a
key of the relevant mapping fails to resolve; in particular
`resolveDirective "en" "Warning"` and `resolveDirective "en" " warning"`
both fail. -/
theorem resolve_exact_match_only (reg : Registry) (tag : String)
    (m : LanguageMapping) (hL : assocLookup tag reg = some m) :
    (∀ s, s ∉ m.directiveNames.map Prod.fst →
        resolveDirective reg tag s = .error .unknownDirective) ∧
    (∀ s, s ∉ m.roleNames.map Prod.fst →
        resolveRole reg tag s = .error .unknownRole) ∧
    resolveDirective enRegistry "en" "Warning" = .error .unknownDirective ∧
    resolveDirective enRegistry "en" " warning" = .error .unknownDirective := by
  refine ⟨?_, ?_, rfl, rfl⟩
  · intro s hs
    simp [resolveDirective, hL, assocLookup_eq_none hs]
  · intro s hs
    simp [resolveRole, hL, assocLookup_eq_none hs]

/-- Witness for C5 at a concrete input: "WARNING", which differs from the
key "warning" only by letter case, is rejected. -/
theorem resolve_exact_match_only_witness :
    resolveDirective enRegistry "en" "WARNING" = .error .unknownDirective :=
  (resolve_exact_match_only enRegistry "en" enMapping rfl).1 "WARNING"
    (by decide)

/-- C6: lookups are deterministic and free of hidden mutation: the same
lookup, performed after any two different sequences of interleaved
lookups against the same initial registry, returns the identical result,
be it a canonical value or a typed error. -/
theorem lookups_deterministic (reg : Registry) (pre1 pre2 : List LookupOp)
    (op : LookupOp) :
    (runLookup (runLookups reg pre1) op).2 =
      (runLookup (runLookups reg pre2) op).2 := by
  rw [runLookups_id, runLookups_id]

/-- C7: the registry, and with it every registered language's
`directiveNames` and `roleNames` mapping, is unchanged by any
`resolveDirective` or `resolveRole` call, whether the lookup succeeds or
fails, and hence by any sequence of such calls. -/
theorem registry_immutable_under_lookups (reg : Registry) :
    (∀ op, (runLookup reg op).1 = reg) ∧
    (∀ ops, runLookups reg ops = reg) :=
  ⟨fun op => runLookup_fst reg op, fun ops => runLookups_id reg ops⟩

/-- C8: `registerLanguage` fails with `DuplicateLanguage` exactly when the
tag is already registered, leaves the registry unchanged on such a
failure, and on success makes exactly that tag resolve to the new mapping
while every other tag's lookup is unaltered. -/
theorem registerLanguage_spec (reg : Registry) (tag : String)
    (m : LanguageMapping) :
    ((registerLanguage reg tag m).2 = .error .duplicateLanguage ↔
      (assocLookup tag reg).isSome = true) ∧
    ((registerLanguage reg tag m).2 = .error .duplicateLanguage →
      (registerLanguage reg tag m).1 = reg) ∧
    (assocLookup tag reg = none →
      assocLookup tag (registerLanguage reg tag m).1 = some m ∧
      ∀ t, t ≠ tag →
        assocLookup t (registerLanguage reg tag m).1 = assocLookup t reg) := by
  cases h : assocLookup tag reg with
  | some m' =>
    refine ⟨by simp [registerLanguage, h], fun _ => by simp [registerLanguage, h],
      fun hnone => absurd hnone (by simp)⟩
  | none =>
    refine ⟨by simp [registerLanguage, h], fun hc => ?_, fun _ => ?_⟩
    · simp [registerLanguage, h] at hc
    · constructor
      · simp [registerLanguage, h, assocLookup]
      · intro t ht
        simp [registerLanguage, h, assocLookup, ht]

/-- Witness for C8 at a concrete input: registering the tag "fr" in the
English-only registry succeeds and makes "fr" resolvable. -/
theorem registerLanguage_spec_witness :
    assocLookup "fr" (registerLanguage enRegistry "fr" enMapping).1 =
      some enMapping :=
  ((registerLanguage_spec enRegistry "fr" enMapping).2.2 rfl).1

/-- C9: canonical names are fixed points of the English mappings: every
value of the `directives` (respectively `roles`) dictionary is also a key
of that dictionary and is mapped to itself; consequently resolution over
the English registry is idempotent: resolving a canonical value returned
by a successful lookup returns that value again. -/
theorem canonical_fixed_points :
    (∀ p ∈ directives, assocLookup p.2 directives = some p.2) ∧
    (∀ p ∈ roles, assocLookup p.2 roles = some p.2) ∧
    (∀ k v, resolveDirective enRegistry "en" k = .ok v →
        resolveDirective enRegistry "en" v = .ok v) ∧
    (∀ k v, resolveRole enRegistry "en" k = .ok v →
        resolveRole enRegistry "en" v = .ok v) := by
  have hdir : ∀ p ∈ directives, assocLookup p.2 directives = some p.2 := by
    decide
  have hrole : ∀ p ∈ roles, assocLookup p.2 roles = some p.2 := by
    decide
  refine ⟨hdir, hrole, ?_, ?_⟩
  · intro k v h
    rw [resolveDirective_en_eq] at h
    cases hk : assocLookup k directives with
    | none => rw [hk] at h; simp at h
    | some w =>
      rw [hk] at h
      have hv : w = v := by simpa using h
      subst hv
      rw [resolveDirective_en_eq, hdir (k, w) (assocLookup_mem hk)]
  · intro k v h
    rw [resolveRole_en_eq] at h
    cases hk : assocLookup k roles with
    | none => rw [hk] at h; simp at h
    | some w =>
      rw [hk] at h
      have hv : w = v := by simpa using h
      subst hv
      rw [resolveRole_en_eq, hrole (k, w) (assocLookup_mem hk)]

/-- Witness for C9 at a concrete input: resolving the canonical value
"uri-reference", obtained by resolving "url", returns it unchanged. -/
theorem canonical_fixed_points_witness :
    resolveRole enRegistry "en" "uri-reference" = .ok "uri-reference" :=
  canonical_fixed_points.2.2.2 "url" "uri-reference" rfl

/-- C10: every key of the English `directives` and `roles` dictionaries
consists solely of lowercase ASCII letters and hyphens; consequently any
query string containing an uppercase ASCII letter or a whitespace
character fails to resolve for the English language. -/
theorem keys_lower_hyphen :
    (∀ k ∈ directives.map Prod.fst, lowerHyphenKey k = true) ∧
    (∀ k ∈ roles.map Prod.fst, lowerHyphenKey k = true) ∧
    (∀ s : String,
      (∃ c ∈ s.data, ('A' ≤ c ∧ c ≤ 'Z') ∨ c.isWhitespace = true) →
      resolveDirective enRegistry "en" s = .error .unknownDirective ∧
      resolveRole enRegistry "en" s = .error .unknownRole) := by
  have hdir : ∀ k ∈ directives.map Prod.fst, lowerHyphenKey k = true := by
    decide
  have hrole : ∀ k ∈ roles.map Prod.fst, lowerHyphenKey k = true := by
    decide
  refine ⟨hdir, hrole, ?_⟩
  rintro s ⟨c, hc, hbad⟩
  have hchar : lowerHyphenChar c = false := by
    rcases hbad with ⟨h1, h2⟩ | hw
    · have hna : ¬ ('a' ≤ c) := not_le.mpr (lt_of_le_of_lt h2 (by decide))
      have hnd : c ≠ '-' := by
        rintro rfl
        exact absurd h1 (by decide)
      simp [lowerHyphenChar, hna, hnd]
    · have hcs : ((c = ' ' ∨ c = '\t') ∨ c = '\r') ∨ c = '\n' := by
        simpa [Char.isWhitespace] using hw
      rcases hcs with ((h | h) | h) | h <;> subst h <;> decide
  have hkey : lowerHyphenKey s = false := by
    cases hall : lowerHyphenKey s with
    | false => rfl
    | true =>
      exfalso
      rw [lowerHyphenKey] at hall
      have := List.all_eq_true.mp hall c hc
      rw [hchar] at this
      exact Bool.false_ne_true this
  have hsdir : s ∉ directives.map Prod.fst := fun hmem =>
    Bool.noConfusion ((hdir s hmem).symm.trans hkey)
  have hsrole : s ∉ roles.map Prod.fst := fun hmem =>
    Bool.noConfusion ((hrole s hmem).symm.trans hkey)
  constructor
  · rw [resolveDirective_en_eq, assocLookup_eq_none hsdir]
  · rw [resolveRole_en_eq, assocLookup_eq_none hsrole]

/-- Witness for C10 at a concrete input: the all-uppercase query "NOTE"
fails to resolve as an English directive. -/
theorem keys_lower_hyphen_witness :
    resolveDirective enRegistry "en" "NOTE" = .error .unknownDirective :=
  (keys_lower_hyphen.2.2 "NOTE"
    ⟨'N', by decide, Or.inl (by decide)⟩).1

end Docutils
